import Mathlib

/-!
# The `interactions` function of schematic-serverless

A shallow embedding of `src/functions/interactions.js`: the text chunker `chunkify`
and the HTTP handler registered under the name `interactions`.

JavaScript strings are Lean strings whose length is counted in UTF-16 code units,
values read from JSON are the inductive type `JsVal`, and the handler is a function that,
given the outcome of every call it makes into its environment (`World`), returns its result
together with the ordered list of those calls.
-/

namespace Interactions

/-! ## Strings -/

/-- Number of UTF-16 code units of a character. -/
def utf16Units (c : Char) : Nat := if c.toNat < 65536 then 1 else 2

/-- The `length` property of a JavaScript string. -/
def jsLength (s : String) : Nat := (s.data.map utf16Units).sum

/-- Joins strings with a separator: `Array.prototype.join`. -/
def joinWith (sep : String) : List String → String
  | [] => ""
  | [s] => s
  | s :: rest => s ++ sep ++ joinWith sep rest

/-! ## The chunker (`chunkify`, lines 15-30) -/

/-- The template literal of line 18 for the page number `n`. -/
def pageIndex (n : Nat) : String := "--- Page " ++ toString n ++ " --- \n \n"

/-- One call of the reducer callback of lines 17-28. The state is the outer array
`chunks` and the accumulator `chuckStr`; `isLast` is the test `i === a.length - 1`. -/
def chunkifyStep (size : Nat) (isLast : Bool) (st : List String × String) (word : String) :
    List String × String :=
  let chunks := st.1
  let chuckStr := st.2
  let pageIndex := pageIndex (chunks.length + 1)
  if jsLength chuckStr + jsLength word + jsLength pageIndex > size then
    (chunks ++ [pageIndex ++ chuckStr], word)
  else if isLast then
    (chunks ++ [pageIndex ++ chuckStr ++ "\n" ++ word], chuckStr)
  else
    (chunks, chuckStr ++ "\n" ++ word)

/-- The traversal performed by `dat.reduce(..., '')`: the callback runs on every item in
order, the last item being the one with nothing after it. -/
def chunkifyLoop (size : Nat) : List String → List String × String → List String × String
  | [], st => st
  | word :: rest, st => chunkifyLoop size rest (chunkifyStep size rest.isEmpty st word)

/-- The function `chunkify(dat, size)`: the array `chunks` after the reduction. -/
def chunkify (dat : List String) (size : Nat) : List String :=
  (chunkifyLoop size dat ([], "")).1

/-! ### Reading chunks back -/

/-- Splits a string on every newline: `String.prototype.split` with separator `"\n"`. -/
def splitLines (s : String) : List String :=
  let r := s.data.foldl
    (fun (acc : List String × List Char) c =>
      if c = '\n' then (acc.1 ++ [String.mk acc.2], []) else (acc.1, acc.2 ++ [c]))
    ([], [])
  r.1 ++ [String.mk r.2]

/-- Removes the page header of page `n` from the front of a chunk. -/
def stripHeader (n : Nat) (chunk : String) : String :=
  String.mk (chunk.data.drop (pageIndex n).data.length)

/-- The items read back from chunks numbered from `n`: each chunk loses its page header
and what remains is split on newline. -/
def readBackFrom : Nat → List String → List String
  | _, [] => []
  | n, chunk :: rest => splitLines (stripHeader n chunk) ++ readBackFrom (n + 1) rest

/-- The items read back from the chunks returned by `chunkify`. -/
def readBack (chunks : List String) : List String := readBackFrom 1 chunks

/-! ## JavaScript values -/

/-- The values the handler reads: what `JSON.parse` and the HTTP clients hand back, and
`undefined`. A number is held as the text that the conversion ToString gives for it
(`1`, `-7`, `1.5`, `1e+21`, `Infinity`; both zeros are `0`): that text determines the
number up to the sign of zero, and everything the handler does with a number (comparing
it with 1 and 2, testing it with `||`, writing it into a text or a property key) depends
on that text alone. The keys of an object are distinct. -/
inductive JsVal where
  | undefined
  | null
  | bool (b : Bool)
  | num (text : String)
  | str (s : String)
  | arr (items : List JsVal)
  | obj (props : List (String × JsVal))

/-- The number with the integer value `n`, for `n` of magnitude below `2 ^ 53`, where
ToString gives the decimal numeral. -/
def JsVal.int (n : Int) : JsVal := .num (toString n)

/-- What a JavaScript computation throws, or a promise rejects with. -/
inductive JsError where
  | syntaxError
  | typeError
  | error (message : String)
  deriving DecidableEq

/-- Truthiness, as tested by the operator `||` of line 42. -/
def truthy : JsVal → Bool
  | .undefined => false
  | .null => false
  | .bool b => b
  | .num text => text != "0" && text != "NaN"
  | .str s => s != ""
  | .arr _ => true
  | .obj _ => true

/-- The code units of a string, one character each; half of a surrogate pair, which a
Lean string cannot hold, is shown as U+FFFD. -/
def codeUnits (s : String) : List Char :=
  s.data.flatMap (fun c => if c.toNat < 65536 then [c] else [Char.ofNat 65533, Char.ofNat 65533])

/-- The index a property key denotes: the key is a decimal numeral without a leading zero
(other than `0` itself). -/
def indexOfKey (key : String) : Option Nat :=
  if key.data ≠ [] ∧ key.data.all Char.isDigit = true ∧
      (key.data.head? ≠ some '0' ∨ key.data.length = 1) then
    some (key.data.foldl (fun n c => 10 * n + (c.toNat - 48)) 0)
  else none

/-- The element of a list at the index the key denotes, if any. -/
def atIndexKey {α : Type} (items : List α) (key : String) : Option α :=
  (indexOfKey key).bind (fun i => items.get? i)

/-- Property read `v[key]` for a string key. Reading a property of `undefined` or `null`
throws a TypeError. Objects are looked up by own key; arrays and strings answer `length`
and their indices. Inherited members (functions, never under a key the handler spells
out) read as `undefined`. -/
def getProp (v : JsVal) (key : String) : Except JsError JsVal :=
  match v with
  | .undefined => .error .typeError
  | .null => .error .typeError
  | .obj props => .ok ((props.lookup key).getD .undefined)
  | .arr items =>
    if key = "length" then .ok (.int items.length)
    else .ok ((atIndexKey items key).getD .undefined)
  | .str s =>
    if key = "length" then .ok (.int (jsLength s))
    else .ok (((atIndexKey (codeUnits s) key).map (fun c => JsVal.str (String.singleton c))).getD
      .undefined)
  | .bool _ => .ok .undefined
  | .num _ => .ok .undefined

/-- Property read `v[i]` for a numeric index. -/
def getIndex (v : JsVal) (i : Nat) : Except JsError JsVal := getProp v (toString i)

mutual
/-- The conversion ToString, as applied by template literals and by computed property
keys. An object with an own key `toString` (which JSON cannot make callable) has no
primitive value: TypeError. -/
def jsToString : JsVal → Except JsError String
  | .undefined => .ok "undefined"
  | .null => .ok "null"
  | .bool true => .ok "true"
  | .bool false => .ok "false"
  | .num text => .ok text
  | .str s => .ok s
  | .arr items => joinItems items
  | .obj props =>
    if (props.map Prod.fst).contains "toString" then .error .typeError
    else .ok "[object Object]"
termination_by structural v => v
/-- The elements of an array joined by commas, `undefined` and `null` as empty strings. -/
def joinItems : List JsVal → Except JsError String
  | [] => .ok ""
  | v :: rest =>
    match (match v with
      | .undefined => Except.ok ""
      | .null => Except.ok ""
      | _ => jsToString v), rest, joinItems rest with
    | .error e, _, _ => .error e
    | .ok a, [], _ => .ok a
    | .ok _, _ :: _, .error e => .error e
    | .ok a, _ :: _, .ok b => .ok (a ++ "," ++ b)
termination_by structural items => items
end

/-- Strict equality `v === n` with an integer literal `n`: `v` is the number whose text is
the decimal numeral of `n`. -/
def strictEqNum (v : JsVal) (n : Int) : Bool :=
  match v with
  | .num text => text == toString n
  | _ => false

/-- Strict equality `v === s` with a string literal. -/
def strictEqStr (v : JsVal) (s : String) : Bool :=
  match v with
  | .str t => t == s
  | _ => false

/-- The method call `a.endsWith(suffix)`: only a string has such a method; on anything
else the call throws a TypeError. -/
def callEndsWith (a : JsVal) (suffix : String) : Except JsError Bool :=
  match a with
  | .str s => .ok (suffix.data.isSuffixOf s.data)
  | _ => .error .typeError

/-- Removes the first occurrence of `pat`, if any. -/
def removeFirst (pat : List Char) : List Char → List Char
  | [] => []
  | c :: cs => if pat.isPrefixOf (c :: cs) then (c :: cs).drop pat.length
    else c :: removeFirst pat cs

/-- The method call `v.replace(pat, "")`: only a string has such a method. -/
def callReplace (v : JsVal) (pat : String) : Except JsError String :=
  match v with
  | .str s => .ok (String.mk (removeFirst pat.data s.data))
  | _ => .error .typeError

/-- The expression `fileURL.split('.').pop()` of line 227: the text after the last dot,
or the whole text when there is none; a TypeError unless `fileURL` is a string. -/
def fileExtensionOf (fileURL : JsVal) : Except JsError String :=
  match fileURL with
  | .str s => .ok (String.mk (s.data.foldl (fun acc c => if c = '.' then [] else acc ++ [c]) []))
  | _ => .error .typeError

/-- Value of a hexadecimal digit. -/
def unhex (c : Char) : Option Nat :=
  if '0' ≤ c ∧ c ≤ '9' then some (c.toNat - 48)
  else if 'a' ≤ c ∧ c ≤ 'f' then some (c.toNat - 87)
  else if 'A' ≤ c ∧ c ≤ 'F' then some (c.toNat - 55)
  else none

/-- The bytes of `Buffer.from(text, "hex")`: one byte per pair of hexadecimal digits, up
to the first pair that is not one. -/
def hexDecode : List Char → List Nat
  | a :: b :: rest =>
    match unhex a, unhex b with
    | some x, some y => (16 * x + y) :: hexDecode rest
    | _, _ => []
  | _ => []

/-! ## The environment of the handler -/

/-- The two HTTP clients built with `axios.create`. -/
inductive Client where
  | discord
  | pterodactyl
  deriving DecidableEq

/-- What the handler asks of its environment, with the arguments that vary. -/
inductive Call where
  /-- The call `nacl.sign.detached.verify(message, signature, publicKey)` of line 56. -/
  | verify (message : String) (signature : List Nat)
  /-- The call `axios.create` of line 67 or of line 154. -/
  | createClient (client : Client)
  /-- The call `discord.post` of line 83, with the command schema. -/
  | registerCommands
  /-- The call `pterodactyl.get` of line 172, with parameter `file`. -/
  | getDownloadLink (file : String)
  /-- The call `axios.get(url, { responseType: 'arraybuffer' })` of line 180 or 247. -/
  | fetch (url : JsVal)
  /-- The call `discord.post` of line 190, with a form holding one file. -/
  | postFile (path : String) (filename : String) (file : List Nat)
  /-- The call `discord.post` of line 311, with body `{ content }`. -/
  | postContent (path : String) (content : String)
  /-- The call `pterodactyl.post` of line 257, with parameter `file` and the bytes. -/
  | writeFile (file : String) (bytes : List Nat)
  /-- The call `pterodactyl.get` of line 296, with parameter `directory`. -/
  | listDirectory (directory : String)

/-- Whether a call is a request sent over the network. -/
def Call.isNetwork : Call → Bool
  | .verify _ _ => false
  | .createClient _ => false
  | _ => true

/-- The outcomes of everything outside the handler. Requests are answered knowing the
calls made before; a rejected promise is an `error`. -/
structure World where
  /-- The builtin `JSON.parse`: the value read, or the SyntaxError thrown. -/
  jsonParse : String → Except JsError JsVal
  /-- The Ed25519 check of a 64-byte signature over a message under the configured key. -/
  ed25519 : String → List Nat → Bool
  /-- The response data of a request of a client, or its rejection. -/
  http : List Call → Call → Except JsError JsVal
  /-- The bytes of a binary download, or its rejection. -/
  fetch : List Call → JsVal → Except JsError (List Nat)
  /-- The name returned by `uniqueNamesGenerator`. -/
  generateName : String

/-- A computation of the handler: from the calls made so far to what it returns or throws
and the calls made by the end. -/
def Exec (α : Type) : Type := List Call → Except JsError α × List Call

/-- A computation that returns at once. -/
def Exec.pure {α : Type} (a : α) : Exec α := fun log => (.ok a, log)

/-- Sequencing; a throw skips what follows. -/
def Exec.bind {α β : Type} (m : Exec α) (f : α → Exec β) : Exec β := fun log =>
  match m log with
  | (.ok a, log1) => f a log1
  | (.error e, log1) => (.error e, log1)

/-- The statement `try { m } catch (err) { h err }`. -/
def Exec.tryCatch {α : Type} (m : Exec α) (h : JsError → Exec α) : Exec α := fun log =>
  match m log with
  | (.ok a, log1) => (.ok a, log1)
  | (.error e, log1) => h e log1

instance : Monad Exec where
  pure := Exec.pure
  bind := Exec.bind

/-- Evaluation of an expression that may throw and calls nothing. -/
def Exec.eval {α : Type} (r : Except JsError α) : Exec α := fun log => (r, log)

/-- A call that cannot fail. -/
def Exec.record (c : Call) : Exec Unit := fun log => (.ok (), log ++ [c])

/-- An awaited request of one of the clients. -/
def Exec.request (w : World) (c : Call) : Exec JsVal := fun log => (w.http log c, log ++ [c])

/-- An awaited `axios.get` with `responseType: 'arraybuffer'`, giving the bytes. -/
def Exec.fetchBinary (w : World) (url : JsVal) : Exec (List Nat) := fun log =>
  (w.fetch log url, log ++ [.fetch url])

/-- The function `nacl.sign.detached.verify` of tweetnacl, which throws
`Error('bad signature size')` unless the signature has 64 bytes and otherwise returns the
result of the Ed25519 check. -/
def Exec.naclVerify (w : World) (message : String) (signature : List Nat) : Exec Bool :=
  fun log =>
    (if signature.length = 64 then .ok (w.ed25519 message signature)
      else .error (.error "bad signature size"),
     log ++ [.verify message signature])

/-! ## The handler (lines 36-371) -/

/-- The request, as far as the handler reads it: the text of the body and the two
signature headers (`none` when `headers.get` gives `null`). -/
structure Request where
  rawBody : String
  signatureHeader : Option String
  timestampHeader : Option String

/-- The constant `InteractionType.PING` of discord-interactions. -/
def InteractionType.PING : Int := 1

/-- The constant `InteractionType.APPLICATION_COMMAND` of discord-interactions. -/
def InteractionType.APPLICATION_COMMAND : Int := 2

/-- The constant `InteractionResponseType.PONG` of discord-interactions. -/
def InteractionResponseType.PONG : Nat := 1

/-- The constant `InteractionResponseType.CHANNEL_MESSAGE_WITH_SOURCE` of
discord-interactions. -/
def InteractionResponseType.CHANNEL_MESSAGE_WITH_SOURCE : Nat := 4

/-- The object given as `jsonBody`: its `type` and, when there is one, `data.content`. -/
structure JsonBody where
  type : Nat
  content : Option String
  deriving DecidableEq

/-- What the handler returns: the HTTP status (200 unless the handler sets one) and the
JSON body, if any. -/
structure Response where
  status : Nat
  jsonBody : Option JsonBody
  deriving DecidableEq

/-- The response `new HttpResponse({ status })`. -/
def statusOnly (status : Nat) : Response := { status := status, jsonBody := none }

/-- The response `{ jsonBody: { type: InteractionResponseType.PONG } }`. -/
def pong : Response :=
  { status := 200, jsonBody := some { type := InteractionResponseType.PONG, content := none } }

/-- The response whose JSON body is a channel message with the given content. -/
def channelMessage (content : String) : Response :=
  { status := 200,
    jsonBody := some { type := InteractionResponseType.CHANNEL_MESSAGE_WITH_SOURCE,
                       content := some content } }

/-- The expression `body.data.options[0].options[0].value`. -/
def optionValue (body : JsVal) : Except JsError JsVal := do
  let data ← getProp body "data"
  let options ← getProp data "options"
  let first ← getIndex options 0
  let inner ← getProp first "options"
  let arg ← getIndex inner 0
  getProp arg "value"

/-- The template literal for the path of the channel's messages (lines 190 and 311). -/
def channelPath (body : JsVal) : Except JsError String := do
  let id ← getProp body "channel_id"
  let text ← jsToString id
  pure ("/channels/" ++ text ++ "/messages")

/-- The subcommand `download` (lines 165-218). -/
def downloadCommand (w : World) (body : JsVal) : Exec Response :=
  Exec.tryCatch
    (do
      let value ← Exec.eval (optionValue body)
      let name ← Exec.eval (jsToString value)
      let data ← Exec.request w
        (.getDownloadLink ("/plugins/WorldEdit/schematics/" ++ name ++ ".schematic"))
      let attributes ← Exec.eval (getProp data "attributes")
      let url ← Exec.eval (getProp attributes "url")
      let file ← Exec.fetchBinary w url
      let path ← Exec.eval (channelPath body)
      let _ ← Exec.request w (.postFile path (name ++ ".schematic") file)
      pure (channelMessage ("Downloaded the schematic file: `" ++ name ++ ".schematic`")))
    (fun _ => pure (channelMessage "Failed to download the schematic file."))

/-- The expression `body.data.resolved.attachments[body.data.options[0].options[0].value].url`
of line 225. -/
def attachmentUrl (body : JsVal) : Except JsError JsVal := do
  let data ← getProp body "data"
  let resolved ← getProp data "resolved"
  let attachments ← getProp resolved "attachments"
  let value ← optionValue body
  let key ← jsToString value
  let attachment ← getProp attachments key
  getProp attachment "url"

/-- The subcommand `upload` (lines 221-288). -/
def uploadCommand (w : World) (body : JsVal) : Exec Response := do
  let fileURL ← Exec.eval (attachmentUrl body)
  let fileExtension ← Exec.eval (fileExtensionOf fileURL)
  if fileExtension != "schematic" then
    pure (channelMessage "Invalid file extension. Please upload a schematic file.")
  else do
    let buffer ← Exec.fetchBinary w fileURL
    let newfilename := w.generateName
    Exec.tryCatch
      (do
        let _ ← Exec.request w
          (.writeFile ("/plugins/WorldEdit/schematics/" ++ newfilename ++ ".schematic") buffer)
        pure (channelMessage ("Uploaded the schematic file: `" ++ newfilename ++ ".schematic`")))
      (fun _ => pure (channelMessage "Failed to upload the schematic file."))

/-- The call `data.data.filter(a => a.endsWith(".schematic"))` of line 305, over the
elements in order. -/
def filterEntries : List JsVal → Except JsError (List JsVal)
  | [] => .ok []
  | a :: rest =>
    match callEndsWith a ".schematic" with
    | .error e => .error e
    | .ok keep =>
      match filterEntries rest with
      | .error e => .error e
      | .ok kept => .ok (if keep then a :: kept else kept)

/-- The callback `file => file.attributes.name.replace(".schematic", "")` of line 305. -/
def entryName (file : JsVal) : Except JsError String := do
  let attributes ← getProp file "attributes"
  let name ← getProp attributes "name"
  callReplace name ".schematic"

/-- The call `.map(...)` of line 305, over the elements in order. -/
def mapEntries : List JsVal → Except JsError (List String)
  | [] => .ok []
  | file :: rest =>
    match entryName file with
    | .error e => .error e
    | .ok name =>
      match mapEntries rest with
      | .error e => .error e
      | .ok names => .ok (name :: names)

/-- The array `files` of line 305; `filter` is a method of arrays only. -/
def listedFiles (data : JsVal) : Except JsError (List String) := do
  let entries ← getProp data "data"
  match entries with
  | .arr items => do
    let kept ← filterEntries items
    mapEntries kept
  | _ => .error .typeError

/-- The loop of lines 310-314: one awaited post per chunk, in order. -/
def postChunks (w : World) (body : JsVal) : List String → Exec Unit
  | [] => pure ()
  | chunk :: rest => do
    let path ← Exec.eval (channelPath body)
    let _ ← Exec.request w (.postContent path ("```" ++ chunk ++ "```"))
    postChunks w body rest

/-- The subcommand `list` (lines 291-337). -/
def listCommand (w : World) (body : JsVal) : Exec Response :=
  Exec.tryCatch
    (do
      let data ← Exec.request w (.listDirectory "/plugins/WorldEdit/schematics")
      let files ← Exec.eval (listedFiles data)
      let chunks := chunkify files 1950
      postChunks w body chunks
      pure (channelMessage "Schematics on the server:"))
    (fun _ => pure (channelMessage "Failed to list the schematic files."))

/-- The command `schematic` (lines 150-350). -/
def schematicCommand (w : World) (body : JsVal) : Exec Response := do
  Exec.record (.createClient .pterodactyl)
  let data ← Exec.eval (getProp body "data")
  let options ← Exec.eval (getProp data "options")
  let first ← Exec.eval (getIndex options 0)
  let name ← Exec.eval (getProp first "name")
  if strictEqStr name "download" then downloadCommand w body
  else if strictEqStr name "upload" then uploadCommand w body
  else if strictEqStr name "list" then listCommand w body
  else pure (channelMessage "Command not found")

/-- The statement `switch (body["type"])` of lines 76-370. -/
def dispatch (w : World) (body : JsVal) : Exec Response := do
  let type ← Exec.eval (getProp body "type")
  if strictEqNum type InteractionType.PING then do
    Exec.tryCatch (do let _ ← Exec.request w .registerCommands; pure ()) (fun _ => pure ())
    pure pong
  else if strictEqNum type InteractionType.APPLICATION_COMMAND then do
    let data ← Exec.eval (getProp body "data")
    let name ← Exec.eval (getProp data "name")
    if strictEqStr name "schematic" then schematicCommand w body
    else pure (channelMessage "CommandGroup not found")
  else pure (statusOnly 400)

/-- The test of line 50 on the two header texts. -/
def shapeRejected (signature timestamp : String) : Bool :=
  signature == "" || timestamp == "" || decide (jsLength signature < 64) ||
    decide (jsLength timestamp < 10)

/-- The handler of the endpoint `interactions`. -/
def handler (w : World) (request : Request) : Exec Response := do
  let rawBody := request.rawBody
  let parsed ← Exec.eval (w.jsonParse rawBody)
  let body := if truthy parsed then parsed else JsVal.str ""
  let signature := request.signatureHeader.getD ""
  let timestamp := request.timestampHeader.getD ""
  if shapeRejected signature timestamp then pure (statusOnly 401)
  else do
    let isVerified ← Exec.naclVerify w (timestamp ++ rawBody) (hexDecode signature.data)
    if !isVerified then pure (statusOnly 401)
    else do
      Exec.record (.createClient .discord)
      dispatch w body

/-- The outcome of the handler on a request: what it returns or throws, and the calls it
made, in order. -/
def run (w : World) (request : Request) : Except JsError Response × List Call :=
  handler w request []

/-- The text signed: the timestamp header followed by the raw body (line 57). -/
def signedMessage (request : Request) : String :=
  request.timestampHeader.getD "" ++ request.rawBody

/-- The signature bytes read from the signature header (line 58). -/
def signatureBytes (request : Request) : List Nat :=
  hexDecode (request.signatureHeader.getD "").data

/-- A verified request with body `body`: the raw body parses to a value of which `body` is
the value after `|| ""`, the headers pass the test of line 50, and the verifier is given
64 bytes and returns true. -/
structure Verified (w : World) (request : Request) (body : JsVal) : Prop where
  parses : ∃ parsed, w.jsonParse request.rawBody = .ok parsed ∧
    body = if truthy parsed then parsed else JsVal.str ""
  shape : shapeRejected (request.signatureHeader.getD "") (request.timestampHeader.getD "") = false
  size : (signatureBytes request).length = 64
  valid : w.ed25519 (signedMessage request) (signatureBytes request) = true

/-- The calls every verified request has made when the dispatch starts: the verifier and
the construction of the chat-platform client. -/
def verifiedLog (request : Request) : List Call :=
  [.verify (signedMessage request) (signatureBytes request), .createClient .discord]

/-! ## Sample inputs -/

/-- The text of a sample request body. -/
def samplePingText : String :=
  "\x7b\"type\":1\x7d"

/-- The value `JSON.parse` reads from the text above. -/
def samplePingBody : JsVal :=
  .obj [("type", .int 1)]

/-- The text of a sample request body. -/
def sampleUnknownTypeText : String :=
  "\x7b\"type\":3\x7d"

/-- The value `JSON.parse` reads from the text above. -/
def sampleUnknownTypeBody : JsVal :=
  .obj [("type", .int 3)]

/-- The text of a sample request body. -/
def sampleUnknownGroupText : String :=
  "\x7b\"type\":2,\"data\":\x7b\"name\":\"ping\"\x7d\x7d"

/-- The value `JSON.parse` reads from the text above. -/
def sampleUnknownGroupBody : JsVal :=
  .obj [("type", .int 2), ("data", .obj [("name", .str "ping")])]

/-- The text of a sample request body. -/
def sampleUnknownCommandText : String :=
  "\x7b\"type\":2,\"data\":\x7b\"name\":\"schematic\",\"options\":[\x7b\"name\":\"frobnicate\"\x7d]\x7d\x7d"

/-- The value `JSON.parse` reads from the text above. -/
def sampleUnknownCommandBody : JsVal :=
  .obj [("type", .int 2),
    ("data", .obj [("name", .str "schematic"),
      ("options", .arr [.obj [("name", .str "frobnicate")]])])]

/-- The text of a sample request body. -/
def sampleUploadText : String :=
  "\x7b\"type\":2,\"channel_id\":\"7\",\"data\":\x7b\"name\":\"schematic\",\"options\":[\x7b\"name\":\"upload\",\"options\":[\x7b\"name\":\"file\",\"value\":\"42\"\x7d]\x7d],\"resolved\":\x7b\"attachments\":\x7b\"42\":\x7b\"url\":\"https://cdn.example/a.schematic\"\x7d\x7d\x7d\x7d\x7d"

/-- The value `JSON.parse` reads from the text above. -/
def sampleUploadBody : JsVal :=
  .obj [("type", .int 2), ("channel_id", .str "7"),
    ("data", .obj [("name", .str "schematic"),
      ("options", .arr [.obj [("name", .str "upload"),
        ("options", .arr [.obj [("name", .str "file"), ("value", .str "42")]])]]),
      ("resolved", .obj [("attachments",
        .obj [("42", .obj [("url", .str "https://cdn.example/a.schematic")])])])])]

/-- The text of a sample request body. -/
def sampleListText : String :=
  "\x7b\"type\":2,\"channel_id\":\"7\",\"data\":\x7b\"name\":\"schematic\",\"options\":[\x7b\"name\":\"list\"\x7d]\x7d\x7d"

/-- The value `JSON.parse` reads from the text above. -/
def sampleListBody : JsVal :=
  .obj [("type", .int 2), ("channel_id", .str "7"),
    ("data", .obj [("name", .str "schematic"),
      ("options", .arr [.obj [("name", .str "list")]])])]

/-- The text of a sample request body: an upload whose attachment is a PNG image. -/
def sampleUploadPngText : String :=
  "\x7b\"type\":2,\"channel_id\":\"7\",\"data\":\x7b\"name\":\"schematic\",\"options\":[\x7b\"name\":\"upload\",\"options\":[\x7b\"name\":\"file\",\"value\":\"42\"\x7d]\x7d],\"resolved\":\x7b\"attachments\":\x7b\"42\":\x7b\"url\":\"https://cdn.example/a.png\"\x7d\x7d\x7d\x7d\x7d"

/-- The value `JSON.parse` reads from the text above. -/
def sampleUploadPngBody : JsVal :=
  .obj [("type", .int 2), ("channel_id", .str "7"),
    ("data", .obj [("name", .str "schematic"),
      ("options", .arr [.obj [("name", .str "upload"),
        ("options", .arr [.obj [("name", .str "file"), ("value", .str "42")]])]]),
      ("resolved", .obj [("attachments",
        .obj [("42", .obj [("url", .str "https://cdn.example/a.png")])])])])]

/-- The text of a sample request body: an application command without `data`. -/
def sampleNoDataText : String :=
  "\x7b\"type\":2\x7d"

/-- The value `JSON.parse` reads from the text above. -/
def sampleNoDataBody : JsVal :=
  .obj [("type", .int 2)]

/-- The text of a sample request body: the command `schematic` with no subcommand. -/
def sampleNoSubcommandText : String :=
  "\x7b\"type\":2,\"data\":\x7b\"name\":\"schematic\",\"options\":[]\x7d\x7d"

/-- The value `JSON.parse` reads from the text above. -/
def sampleNoSubcommandBody : JsVal :=
  .obj [("type", .int 2), ("data", .obj [("name", .str "schematic"), ("options", .arr [])])]

/-- A directory listing of the file host holding `a.schematic` and `b.schematic`. -/
def sampleListing : JsVal :=
  .obj [("object", .str "list"),
    ("data", .arr [
      .obj [("object", .str "file_object"), ("attributes", .obj [("name", .str "a.schematic")])],
      .obj [("object", .str "file_object"), ("attributes", .obj [("name", .str "b.schematic")])]])]

/-- The sample texts with the values `JSON.parse` reads from them. -/
def sampleBodies : List (String × JsVal) :=
  [(samplePingText, samplePingBody),
   (sampleUnknownTypeText, sampleUnknownTypeBody),
   (sampleUnknownGroupText, sampleUnknownGroupBody),
   (sampleUnknownCommandText, sampleUnknownCommandBody),
   (sampleUploadText, sampleUploadBody),
   (sampleListText, sampleListBody),
   (sampleUploadPngText, sampleUploadPngBody),
   (sampleNoDataText, sampleNoDataBody),
   (sampleNoSubcommandText, sampleNoSubcommandBody)]

/-- A world that agrees with `JSON.parse` on the sample texts and on the empty text (a
SyntaxError), in which the Ed25519 check accepts, and whose network behaves as given. -/
def sampleWorld (http : List Call → Call → Except JsError JsVal)
    (fetch : List Call → JsVal → Except JsError (List Nat)) : World :=
  { jsonParse := fun text =>
      match sampleBodies.lookup text with
      | some v => .ok v
      | none => .error .syntaxError
    ed25519 := fun _ _ => true
    http := http
    fetch := fetch
    generateName := "BraveBlueOtter" }

/-- A network on which every request is rejected. -/
def offlineWorld : World :=
  sampleWorld (fun _ _ => .error (.error "Network Error"))
    (fun _ _ => .error (.error "Network Error"))

/-- A network on which the file host lists `a.schematic` and `b.schematic`, every other
request is answered with `null`, and every download is empty. -/
def listingWorld : World :=
  sampleWorld
    (fun _ c =>
      match c with
      | .listDirectory _ => .ok sampleListing
      | _ => .ok .null)
    (fun _ _ => .ok [])

/-- A request with body `text`, a signature header of `n` hexadecimal digits and a
ten-digit timestamp. -/
def sampleRequest (text : String) (n : Nat) : Request :=
  { rawBody := text
    signatureHeader := some (String.mk (List.replicate n 'a'))
    timestampHeader := some "1700000000" }

/-- The body is an application command naming the command `schematic` and the subcommand
`sub`: `type` is 2, `data.name` is `schematic` and `data.options[0].name` is `sub`. -/
def Invokes (body : JsVal) (sub : String) : Prop :=
  ∃ data options first,
    getProp body "type" = .ok (.int InteractionType.APPLICATION_COMMAND) ∧
    getProp body "data" = .ok data ∧
    getProp data "name" = .ok (.str "schematic") ∧
    getProp data "options" = .ok options ∧
    getIndex options 0 = .ok first ∧
    getProp first "name" = .ok (.str sub)

/-- The calls a verified invocation of `schematic` has made when the subcommand starts. -/
def schematicLog (request : Request) : List Call :=
  verifiedLog request ++ [.createClient .pterodactyl]

/-- The requests a list of calls sent over the network, in order. -/
def networkCalls (log : List Call) : List Call := log.filter Call.isNetwork

/-! ## Facts about strings -/

theorem jsLength_append (a b : String) : jsLength (a ++ b) = jsLength a + jsLength b := by
  simp [jsLength, String.data_append]

theorem jsLength_empty : jsLength "" = 0 := by decide

theorem jsLength_newline : jsLength "\n" = 1 := by decide

theorem jsLength_pageIndex_one : jsLength (pageIndex 1) = 18 := by decide

theorem jsLength_joinWith_cons (sep s : String) (t : String) (rest : List String) :
    jsLength (joinWith sep (s :: t :: rest)) =
      jsLength s + jsLength sep + jsLength (joinWith sep (t :: rest)) := by
  simp [joinWith, jsLength_append]

/-! ## Facts about the chunker -/

/-- While nothing has been pushed and the buffer together with the remaining items fits,
the loop ends with the single chunk made of the first header, the buffer, and each
remaining item after a newline. -/
theorem chunkifyLoop_fits (size : Nat) (w : String) (rest : List String) (acc : String)
    (h : jsLength acc + jsLength (joinWith "\n" (w :: rest)) + 18 ≤ size) :
    (chunkifyLoop size (w :: rest) ([], acc)).1 =
      [pageIndex 1 ++ acc ++ "\n" ++ joinWith "\n" (w :: rest)] := by
  induction rest generalizing w acc with
  | nil =>
    simp only [joinWith] at h
    have h1 : ¬ (jsLength acc + jsLength w + jsLength (pageIndex 1) > size) := by
      rw [jsLength_pageIndex_one]; omega
    simp [chunkifyLoop, chunkifyStep, h1, joinWith]
  | cons t rest ih =>
    rw [jsLength_joinWith_cons, jsLength_newline] at h
    have h1 : ¬ (jsLength acc + jsLength w + jsLength (pageIndex 1) > size) := by
      rw [jsLength_pageIndex_one]; omega
    have h2 : jsLength (acc ++ "\n" ++ w) + jsLength (joinWith "\n" (t :: rest)) + 18 ≤ size := by
      rw [jsLength_append, jsLength_append, jsLength_newline]; omega
    have hstep : chunkifyStep size false ([], acc) w = ([], acc ++ "\n" ++ w) := by
      simp [chunkifyStep, h1]
    have hloop : chunkifyLoop size (w :: t :: rest) ([], acc) =
        chunkifyLoop size (t :: rest) (chunkifyStep size false ([], acc) w) := rfl
    rw [hloop, hstep, ih t (acc ++ "\n" ++ w) h2]
    simp [joinWith, String.append_assoc]

/-- When the joined items and the first header fit in `size`, the loop never takes the
first branch and the last item closes the only chunk. -/
theorem chunkify_eq_of_fits (items : List String) (size : Nat) (hne : items ≠ [])
    (h : jsLength (joinWith "\n" items) + 18 ≤ size) :
    chunkify items size = [pageIndex 1 ++ "\n" ++ joinWith "\n" items] := by
  cases items with
  | nil => exact absurd rfl hne
  | cons w rest =>
    have h2 : jsLength "" + jsLength (joinWith "\n" (w :: rest)) + 18 ≤ size := by
      rw [jsLength_empty]; omega
    have := chunkifyLoop_fits size w rest "" h2
    simpa [chunkify] using this

/-- C5, what the code does instead: an only item too long to fit beside the first header
takes the first branch of the callback, which pushes the header with the empty buffer and
leaves the item in the accumulator; the reduction ends there, so the item is in no chunk. -/
theorem chunkify_single_oversized (w : String) (size : Nat) (h : size < jsLength w + 18) :
    chunkify [w] size = [pageIndex 1] := by
  have h1 : jsLength "" + jsLength w + jsLength (pageIndex 1) > size := by
    rw [jsLength_pageIndex_one, jsLength_empty]; omega
  simp [chunkify, chunkifyLoop, chunkifyStep, h1]

theorem chunkify_single_oversized_witness :
    5 < jsLength "abc" + 18 ∧ chunkify ["abc"] 5 = ["--- Page 1 --- \n \n"] :=
  ⟨by decide, chunkify_single_oversized "abc" 5 (by decide)⟩

/-- C6, what the code does instead: reading back the chunks of one item gives an empty
item before it, and reading back the chunks of two items under the smallest size the
claim allows (the longest item plus the header) gives the first item only. -/
theorem readBack_chunkify_differs :
    readBack (chunkify ["a"] 1950) = ["", "a"] ∧
      readBack (chunkify ["a", "b"] 19) = ["", "a"] := by
  decide

/-- C7, what the code does instead: when the joined items and the first header fit in
`size`, the only chunk is the header, then a newline, then the joined items. -/
theorem chunkify_fits (items : List String) (size : Nat) (hne : items ≠ [])
    (h : jsLength (joinWith "\n" items) + 18 ≤ size) :
    chunkify items size = [pageIndex 1 ++ "\n" ++ joinWith "\n" items] :=
  chunkify_eq_of_fits items size hne h


theorem chunkify_fits_witness :
    ["a"] ≠ [] ∧ jsLength (joinWith "\n" ["a"]) + 18 ≤ 1950 ∧
      chunkify ["a"] 1950 = ["--- Page 1 --- \n \n\na"] :=
  ⟨by decide, by decide, chunkify_fits ["a"] 1950 (by decide) (by decide)⟩

/-- C8, what the code does instead: for an only item and the size that exactly holds the
item and the header, the chunk returned is one longer than the size. -/
theorem chunkify_exceeds_size (w : String) :
    (chunkify [w] (jsLength w + 18)).map jsLength = [jsLength w + 18 + 1] := by
  have h := chunkify_eq_of_fits [w] (jsLength w + 18) (by simp) (by simp [joinWith])
  rw [h]
  simp [joinWith, jsLength_append, jsLength_pageIndex_one, jsLength_newline]
  omega

/-! ## Facts about the handler -/

/-- C1, what the code does instead: the body is parsed on line 42, before the headers are
read, so a body that `JSON.parse` rejects makes the handler throw that error whatever the
headers are, and no response is returned. -/
theorem handler_throws_of_parse_error (w : World) (request : Request) (e : JsError)
    (h : w.jsonParse request.rawBody = .error e) :
    run w request = (.error e, []) := by
  simp [run, handler, Bind.bind, Exec.bind, Exec.eval, h]

/-- A verified request reaches the dispatch with the verifier called once and the
chat-platform client built. -/
theorem run_of_verified (w : World) (request : Request) (body : JsVal)
    (hv : Verified w request body) :
    run w request = dispatch w body (verifiedLog request) := by
  obtain ⟨⟨parsed, hp, hb⟩, hshape, hsize, hvalid⟩ := hv
  simp only [signatureBytes, signedMessage] at hsize hvalid
  simp [run, handler, Bind.bind, Exec.bind, Exec.eval, Exec.naclVerify, Exec.record, hp, hshape,
    hsize, hvalid, verifiedLog, signatureBytes, signedMessage, hb]

/-- The body of a verified request is never `undefined` or `null`, so reading one of its
properties does not throw. -/
theorem getProp_body_ok (w : World) (request : Request) (body : JsVal)
    (hv : Verified w request body) (key : String) : ∃ v, getProp body key = .ok v := by
  obtain ⟨⟨parsed, _, hb⟩, _, _, _⟩ := hv
  have hbody : body ≠ .undefined ∧ body ≠ .null := by
    subst hb
    cases parsed <;> simp [truthy] <;> split_ifs <;> simp
  cases body with
  | undefined => exact absurd rfl hbody.1
  | null => exact absurd rfl hbody.2
  | bool b => exact ⟨_, rfl⟩
  | num n => exact ⟨_, rfl⟩
  | obj props => exact ⟨_, rfl⟩
  | arr items => by_cases hk : key = "length" <;> simp [getProp, hk]
  | str t => by_cases hk : key = "length" <;> simp [getProp, hk]

theorem strictEqNum_eq_true (v : JsVal) (n : Int) : strictEqNum v n = true ↔ v = .int n := by
  cases v <;> simp [strictEqNum, JsVal.int]

theorem strictEqStr_eq_true (v : JsVal) (s : String) : strictEqStr v s = true ↔ v = .str s := by
  cases v <;> simp [strictEqStr]

theorem strictEqNum_int_self (n : Int) : strictEqNum (.int n) n = true :=
  (strictEqNum_eq_true _ _).2 rfl

theorem strictEqNum_command_ping :
    strictEqNum (.int InteractionType.APPLICATION_COMMAND) InteractionType.PING = false := by
  decide

/-- A verified invocation of `schematic` with subcommand `upload` runs the upload
subcommand once the file-host client is built. -/
theorem run_of_upload (w : World) (request : Request) (body : JsVal)
    (hv : Verified w request body) (hi : Invokes body "upload") :
    run w request = uploadCommand w body (schematicLog request) := by
  obtain ⟨data, options, first, ht, hd, hn, ho, hf, hs⟩ := hi
  rw [run_of_verified w request body hv]
  simp [dispatch, schematicCommand, Bind.bind, Exec.bind, Exec.eval, Exec.record, ht, hd, hn, ho,
    hf, hs, strictEqNum_int_self, strictEqNum_command_ping, strictEqStr,
    schematicLog]

/-- A verified invocation of `schematic` with subcommand `list` runs the list subcommand
once the file-host client is built. -/
theorem run_of_list (w : World) (request : Request) (body : JsVal)
    (hv : Verified w request body) (hi : Invokes body "list") :
    run w request = listCommand w body (schematicLog request) := by
  obtain ⟨data, options, first, ht, hd, hn, ho, hf, hs⟩ := hi
  rw [run_of_verified w request body hv]
  simp [dispatch, schematicCommand, Bind.bind, Exec.bind, Exec.eval, Exec.record, ht, hd, hn, ho,
    hf, hs, strictEqNum_int_self, strictEqNum_command_ping, strictEqStr,
    schematicLog]

/-- C2, what the code does instead: a signature header that passes the test of line 50
but does not decode to 64 bytes (the test asks for 64 characters, which decode to 32
bytes) makes the verifier throw, and the handler throws with it instead of returning 401. -/
theorem handler_throws_of_bad_signature_size (w : World) (request : Request) (parsed : JsVal)
    (hp : w.jsonParse request.rawBody = .ok parsed)
    (hshape : shapeRejected (request.signatureHeader.getD "")
      (request.timestampHeader.getD "") = false)
    (hsize : (signatureBytes request).length ≠ 64) :
    run w request =
      (.error (.error "bad signature size"),
       [.verify (signedMessage request) (signatureBytes request)]) := by
  simp only [signatureBytes] at hsize
  simp [run, handler, Bind.bind, Exec.bind, Exec.eval, Exec.naclVerify, hp, hshape, hsize,
    signatureBytes, signedMessage]

theorem handler_throws_of_bad_signature_size_witness :
    offlineWorld.jsonParse (sampleRequest samplePingText 64).rawBody = .ok samplePingBody ∧
    shapeRejected ((sampleRequest samplePingText 64).signatureHeader.getD "")
      ((sampleRequest samplePingText 64).timestampHeader.getD "") = false ∧
    (signatureBytes (sampleRequest samplePingText 64)).length = 32 ∧
    run offlineWorld (sampleRequest samplePingText 64) =
      (.error (.error "bad signature size"),
       [.verify (signedMessage (sampleRequest samplePingText 64))
         (signatureBytes (sampleRequest samplePingText 64))]) :=
  ⟨by rfl, by decide, by decide,
   handler_throws_of_bad_signature_size offlineWorld (sampleRequest samplePingText 64)
     samplePingBody (by rfl) (by decide) (by decide)⟩

theorem handler_throws_of_parse_error_witness :
    offlineWorld.jsonParse "" = .error .syntaxError ∧
    run offlineWorld { rawBody := "", signatureHeader := none, timestampHeader := none } =
      (.error .syntaxError, []) :=
  ⟨by rfl, handler_throws_of_parse_error offlineWorld
    { rawBody := "", signatureHeader := none, timestampHeader := none } .syntaxError (by rfl)⟩

set_option maxRecDepth 8192 in
/-- A sample request with a valid signature shape is verified in a sample world. -/
theorem sample_verified (http : List Call → Call → Except JsError JsVal)
    (fetch : List Call → JsVal → Except JsError (List Nat)) (text : String) (body : JsVal)
    (h : sampleBodies.lookup text = some body) (ht : truthy body = true) :
    Verified (sampleWorld http fetch) (sampleRequest text 128) body where
  parses := ⟨body, by simp [sampleWorld, sampleRequest, h], by simp [ht]⟩
  shape := by
    show shapeRejected (String.mk (List.replicate 128 'a')) "1700000000" = false
    rfl
  size := by
    show (hexDecode (List.replicate 128 'a')).length = 64
    rfl
  valid := rfl

/-- C10: a verified request whose body type is ping makes, after verification, exactly one
call, the command registration, and returns status 200 with the JSON body of type PONG.
The world is arbitrary, so the outcome is the same whether the registration is answered or
rejected, and in neither case does the handler throw. -/
theorem ping_registers_once_and_pongs (w : World) (request : Request) (body : JsVal)
    (hv : Verified w request body)
    (ht : getProp body "type" = .ok (.int InteractionType.PING)) :
    run w request = (.ok pong, verifiedLog request ++ [.registerCommands]) ∧
      pong.status = 200 ∧
      pong.jsonBody = some { type := InteractionResponseType.PONG, content := none } := by
  refine ⟨?_, rfl, rfl⟩
  rw [run_of_verified w request body hv]
  cases hreg : w.http (verifiedLog request) .registerCommands <;>
    simp [dispatch, Bind.bind, Exec.bind, Exec.eval, Exec.tryCatch, Exec.request, Pure.pure,
      Exec.pure, ht, strictEqNum_int_self, hreg]

theorem ping_registers_once_and_pongs_witness :
    Verified offlineWorld (sampleRequest samplePingText 128) samplePingBody ∧
    getProp samplePingBody "type" = .ok (.int InteractionType.PING) ∧
    offlineWorld.http (verifiedLog (sampleRequest samplePingText 128)) .registerCommands =
      .error (.error "Network Error") ∧
    run offlineWorld (sampleRequest samplePingText 128) =
      (.ok pong, verifiedLog (sampleRequest samplePingText 128) ++ [.registerCommands]) :=
  ⟨sample_verified _ _ samplePingText samplePingBody rfl rfl, rfl, rfl,
   (ping_registers_once_and_pongs offlineWorld (sampleRequest samplePingText 128) samplePingBody
     (sample_verified _ _ samplePingText samplePingBody rfl rfl) rfl).1⟩

/-- C9, as amended: for a verified request, a type that is neither 1 nor 2 gives status
400 and no body; type 2 with a `data` whose `name` can be read (`data` is neither missing
nor `null`) and is not `schematic` gives status 200 with the channel message (type 4)
`CommandGroup not found`; the command `schematic` with an `options[0]` whose `name` can be
read and is none of `download`, `upload` and `list` gives status 200 with the channel
message `Command not found`. The calls made are the verifier and the construction of
clients: none of them is a request over the network. -/
theorem unknown_path_fallback (w : World) (request : Request) (body : JsVal)
    (hv : Verified w request body) :
    (getProp body "type" ≠ .ok (.int InteractionType.PING) →
      getProp body "type" ≠ .ok (.int InteractionType.APPLICATION_COMMAND) →
      run w request = (.ok { status := 400, jsonBody := none }, verifiedLog request)) ∧
    (∀ data name, getProp body "type" = .ok (.int InteractionType.APPLICATION_COMMAND) →
      getProp body "data" = .ok data → getProp data "name" = .ok name →
      name ≠ .str "schematic" →
      run w request =
        (.ok { status := 200,
               jsonBody := some { type := 4, content := some "CommandGroup not found" } },
         verifiedLog request)) ∧
    (∀ data options first name,
      getProp body "type" = .ok (.int InteractionType.APPLICATION_COMMAND) →
      getProp body "data" = .ok data → getProp data "name" = .ok (.str "schematic") →
      getProp data "options" = .ok options → getIndex options 0 = .ok first →
      getProp first "name" = .ok name →
      name ≠ .str "download" → name ≠ .str "upload" → name ≠ .str "list" →
      run w request =
        (.ok { status := 200,
               jsonBody := some { type := 4, content := some "Command not found" } },
         verifiedLog request ++ [.createClient .pterodactyl])) ∧
    networkCalls (verifiedLog request) = [] ∧
    networkCalls (verifiedLog request ++ [.createClient .pterodactyl]) = [] := by
  have hstatus : statusOnly 400 = { status := 400, jsonBody := none } := rfl
  have hmessage : ∀ content, channelMessage content =
      { status := 200, jsonBody := some { type := 4, content := some content } } :=
    fun _ => rfl
  rw [← hstatus, ← hmessage, ← hmessage]
  rw [run_of_verified w request body hv]
  refine ⟨?_, ?_, ?_, rfl, rfl⟩
  · intro h1 h2
    obtain ⟨t, ht⟩ := getProp_body_ok w request body hv "type"
    have e1 : strictEqNum t InteractionType.PING = false := by
      rw [Bool.eq_false_iff]; intro h
      rw [strictEqNum_eq_true] at h
      exact h1 (by rw [ht, h])
    have e2 : strictEqNum t InteractionType.APPLICATION_COMMAND = false := by
      rw [Bool.eq_false_iff]; intro h
      rw [strictEqNum_eq_true] at h
      exact h2 (by rw [ht, h])
    simp [dispatch, Bind.bind, Exec.bind, Exec.eval, Pure.pure, Exec.pure, ht, e1, e2]
  · intro data name ht hd hn hne
    have e : strictEqStr name "schematic" = false := by
      rw [Bool.eq_false_iff]; intro h
      exact hne ((strictEqStr_eq_true _ _).1 h)
    simp [dispatch, Bind.bind, Exec.bind, Exec.eval, Pure.pure, Exec.pure, ht, hd, hn, e,
      strictEqNum_int_self, strictEqNum_command_ping]
  · intro data options first name ht hd hn ho hf hs n1 n2 n3
    have e1 : strictEqStr name "download" = false := by
      rw [Bool.eq_false_iff]; intro h
      exact n1 ((strictEqStr_eq_true _ _).1 h)
    have e2 : strictEqStr name "upload" = false := by
      rw [Bool.eq_false_iff]; intro h
      exact n2 ((strictEqStr_eq_true _ _).1 h)
    have e3 : strictEqStr name "list" = false := by
      rw [Bool.eq_false_iff]; intro h
      exact n3 ((strictEqStr_eq_true _ _).1 h)
    have es : strictEqStr (.str "schematic") "schematic" = true := rfl
    simp [dispatch, schematicCommand, Bind.bind, Exec.bind, Exec.eval, Exec.record, Pure.pure,
      Exec.pure, ht, hd, hn, ho, hf, hs, e1, e2, e3, es, strictEqNum_int_self,
      strictEqNum_command_ping]

set_option maxRecDepth 8192 in
theorem unknown_path_fallback_witness :
    Verified offlineWorld (sampleRequest sampleUnknownTypeText 128) sampleUnknownTypeBody ∧
    run offlineWorld (sampleRequest sampleUnknownTypeText 128) =
      (.ok { status := 400, jsonBody := none },
       verifiedLog (sampleRequest sampleUnknownTypeText 128)) ∧
    run offlineWorld (sampleRequest sampleUnknownGroupText 128) =
      (.ok { status := 200,
             jsonBody := some { type := 4, content := some "CommandGroup not found" } },
       verifiedLog (sampleRequest sampleUnknownGroupText 128)) ∧
    run offlineWorld (sampleRequest sampleUnknownCommandText 128) =
      (.ok { status := 200,
             jsonBody := some { type := 4, content := some "Command not found" } },
       verifiedLog (sampleRequest sampleUnknownCommandText 128) ++
         [.createClient .pterodactyl]) :=
  ⟨sample_verified _ _ sampleUnknownTypeText sampleUnknownTypeBody rfl rfl,
   (unknown_path_fallback offlineWorld (sampleRequest sampleUnknownTypeText 128)
      sampleUnknownTypeBody
      (sample_verified _ _ sampleUnknownTypeText sampleUnknownTypeBody rfl rfl)).1
      (by simp [sampleUnknownTypeBody, getProp, JsVal.int]; decide)
      (by simp [sampleUnknownTypeBody, getProp, JsVal.int]; decide),
   (unknown_path_fallback offlineWorld (sampleRequest sampleUnknownGroupText 128)
      sampleUnknownGroupBody
      (sample_verified _ _ sampleUnknownGroupText sampleUnknownGroupBody rfl rfl)).2.1
      (.obj [("name", .str "ping")]) (.str "ping") rfl rfl rfl (by simp),
   (unknown_path_fallback offlineWorld (sampleRequest sampleUnknownCommandText 128)
      sampleUnknownCommandBody
      (sample_verified _ _ sampleUnknownCommandText sampleUnknownCommandBody rfl rfl)).2.2.1
      (.obj [("name", .str "schematic"), ("options", .arr [.obj [("name", .str "frobnicate")]])])
      (.arr [.obj [("name", .str "frobnicate")]]) (.obj [("name", .str "frobnicate")])
      (.str "frobnicate") rfl rfl rfl rfl rfl rfl (by simp) (by simp) (by simp)⟩

set_option maxRecDepth 8192 in
/-- C9, as first stated, fails: a verified application command without `data` names no
known dispatch path, yet reading `data.name` on line 135 throws a TypeError and no
fallback is returned; likewise the command `schematic` with an empty `options`, where
reading `options[0].name` on line 161 throws after the file-host client is built. -/
theorem application_command_without_data_throws :
    Verified offlineWorld (sampleRequest sampleNoDataText 128) sampleNoDataBody ∧
    run offlineWorld (sampleRequest sampleNoDataText 128) =
      (.error .typeError, verifiedLog (sampleRequest sampleNoDataText 128)) ∧
    Verified offlineWorld (sampleRequest sampleNoSubcommandText 128) sampleNoSubcommandBody ∧
    run offlineWorld (sampleRequest sampleNoSubcommandText 128) =
      (.error .typeError,
       verifiedLog (sampleRequest sampleNoSubcommandText 128) ++
         [.createClient .pterodactyl]) :=
  ⟨sample_verified _ _ sampleNoDataText sampleNoDataBody rfl rfl,
   (run_of_verified _ _ _ (sample_verified _ _ sampleNoDataText sampleNoDataBody rfl rfl)).trans
     rfl,
   sample_verified _ _ sampleNoSubcommandText sampleNoSubcommandBody rfl rfl,
   (run_of_verified _ _ _
     (sample_verified _ _ sampleNoSubcommandText sampleNoSubcommandBody rfl rfl)).trans rfl⟩

/-- C3, what the code does instead: in the upload subcommand the download of the
attachment (line 247) stands before the `try` of line 255, so when that download is
rejected the handler throws the rejection and returns no reply; the file host is never
asked. -/
theorem upload_throws_of_fetch_failure (w : World) (request : Request) (body : JsVal)
    (url : String) (e : JsError) (hv : Verified w request body) (hi : Invokes body "upload")
    (hu : attachmentUrl body = .ok (.str url))
    (hx : fileExtensionOf (.str url) = .ok "schematic")
    (hf : w.fetch (schematicLog request) (.str url) = .error e) :
    run w request = (.error e, schematicLog request ++ [.fetch (.str url)]) := by
  rw [run_of_upload w request body hv hi]
  simp [uploadCommand, Bind.bind, Exec.bind, Exec.eval, Exec.fetchBinary, hu, hx, hf]

set_option maxRecDepth 8192 in
theorem upload_throws_of_fetch_failure_witness :
    Verified offlineWorld (sampleRequest sampleUploadText 128) sampleUploadBody ∧
    Invokes sampleUploadBody "upload" ∧
    attachmentUrl sampleUploadBody = .ok (.str "https://cdn.example/a.schematic") ∧
    fileExtensionOf (.str "https://cdn.example/a.schematic") = .ok "schematic" ∧
    run offlineWorld (sampleRequest sampleUploadText 128) =
      (.error (.error "Network Error"),
       schematicLog (sampleRequest sampleUploadText 128) ++
         [.fetch (.str "https://cdn.example/a.schematic")]) :=
  ⟨sample_verified _ _ sampleUploadText sampleUploadBody rfl rfl,
   ⟨_, _, _, rfl, rfl, rfl, rfl, rfl, rfl⟩, rfl, rfl,
   upload_throws_of_fetch_failure offlineWorld (sampleRequest sampleUploadText 128)
     sampleUploadBody "https://cdn.example/a.schematic" (.error "Network Error")
     (sample_verified _ _ sampleUploadText sampleUploadBody rfl rfl)
     ⟨_, _, _, rfl, rfl, rfl, rfl, rfl, rfl⟩ rfl rfl rfl⟩

/-- C4, what the code does instead: the filter of line 305 calls `endsWith` on the entry
itself, and an entry that is an object has no such method, so as soon as the listing
starts with an object the TypeError is caught on line 324: nothing is posted to the
channel and the reply is the failure text of the list subcommand. -/
theorem list_fails_on_object_entries (w : World) (request : Request) (body data : JsVal)
    (props : List (String × JsVal)) (rest : List JsVal)
    (hv : Verified w request body) (hi : Invokes body "list")
    (hl : w.http (schematicLog request) (.listDirectory "/plugins/WorldEdit/schematics") =
      .ok data)
    (hd : getProp data "data" = .ok (.arr (.obj props :: rest))) :
    run w request =
      (.ok { status := 200,
             jsonBody := some
               { type := 4, content := some "Failed to list the schematic files." } },
       schematicLog request ++ [.listDirectory "/plugins/WorldEdit/schematics"]) := by
  have hmessage : channelMessage "Failed to list the schematic files." =
      { status := 200,
        jsonBody := some { type := 4, content := some "Failed to list the schematic files." } } :=
    rfl
  rw [← hmessage, run_of_list w request body hv hi]
  simp [listCommand, Bind.bind, Exec.bind, Exec.eval, Exec.tryCatch, Exec.request, Pure.pure,
    Exec.pure, hl, listedFiles, hd, filterEntries, callEndsWith, Except.bind]

set_option maxRecDepth 8192 in
theorem list_fails_on_object_entries_witness :
    Verified listingWorld (sampleRequest sampleListText 128) sampleListBody ∧
    Invokes sampleListBody "list" ∧
    run listingWorld (sampleRequest sampleListText 128) =
      (.ok { status := 200,
             jsonBody := some
               { type := 4, content := some "Failed to list the schematic files." } },
       schematicLog (sampleRequest sampleListText 128) ++
         [.listDirectory "/plugins/WorldEdit/schematics"]) :=
  ⟨sample_verified _ _ sampleListText sampleListBody rfl rfl,
   ⟨_, _, _, rfl, rfl, rfl, rfl, rfl, rfl⟩,
   list_fails_on_object_entries listingWorld (sampleRequest sampleListText 128) sampleListBody
     sampleListing _ _
     (sample_verified _ _ sampleListText sampleListBody rfl rfl)
     ⟨_, _, _, rfl, rfl, rfl, rfl, rfl, rfl⟩ rfl rfl⟩

/-! ## Further facts about the handler -/

/-- With a body that parses, headers that fail the test of line 50 give status 401 before
the verifier or any client is touched. -/
theorem shape_rejected_unauthorized (w : World) (request : Request) (parsed : JsVal)
    (hp : w.jsonParse request.rawBody = .ok parsed)
    (hshape : shapeRejected (request.signatureHeader.getD "")
      (request.timestampHeader.getD "") = true) :
    run w request = (.ok (statusOnly 401), []) := by
  simp [run, handler, Bind.bind, Exec.bind, Exec.eval, Pure.pure, Exec.pure, hp, hshape]

/-- With a body that parses and a signature of 64 bytes, a failed Ed25519 check gives
status 401 after the one call of the verifier. -/
theorem mismatch_unauthorized (w : World) (request : Request) (parsed : JsVal)
    (hp : w.jsonParse request.rawBody = .ok parsed)
    (hshape : shapeRejected (request.signatureHeader.getD "")
      (request.timestampHeader.getD "") = false)
    (hsize : (signatureBytes request).length = 64)
    (hbad : w.ed25519 (signedMessage request) (signatureBytes request) = false) :
    run w request =
      (.ok (statusOnly 401), [.verify (signedMessage request) (signatureBytes request)]) := by
  simp only [signatureBytes, signedMessage] at hsize hbad
  simp [run, handler, Bind.bind, Exec.bind, Exec.eval, Exec.naclVerify, Pure.pure, Exec.pure, hp,
    hshape, hsize, hbad, signatureBytes, signedMessage]

/-- A `try` whose `catch` returns a value never throws. -/
theorem tryCatch_returns {α : Type} (m : Exec α) (r : α) (log : List Call) :
    ∃ a log1, Exec.tryCatch m (fun _ => Exec.pure r) log = (.ok a, log1) := by
  unfold Exec.tryCatch
  rcases hm : m log with ⟨res, log1⟩
  cases res with
  | ok a => exact ⟨a, log1, rfl⟩
  | error e => exact ⟨r, log1, rfl⟩

/-- The download subcommand always returns a reply. -/
theorem downloadCommand_returns (w : World) (body : JsVal) (log : List Call) :
    ∃ r log1, downloadCommand w body log = (.ok r, log1) :=
  tryCatch_returns _ _ log

/-- The list subcommand always returns a reply. -/
theorem listCommand_returns (w : World) (body : JsVal) (log : List Call) :
    ∃ r log1, listCommand w body log = (.ok r, log1) :=
  tryCatch_returns _ _ log

/-- What the filter of line 305 keeps are strings. -/
theorem filterEntries_strings (items kept : List JsVal) (h : filterEntries items = .ok kept) :
    ∀ v ∈ kept, ∃ s, v = .str s := by
  induction items generalizing kept with
  | nil =>
    simp [filterEntries] at h
    subst h
    simp
  | cons a rest ih =>
    cases a with
    | str s =>
      cases hr : filterEntries rest with
      | error e => simp [filterEntries, callEndsWith, hr] at h
      | ok kept1 =>
        simp only [filterEntries, callEndsWith, hr, Except.ok.injEq] at h
        subst h
        intro v hv
        split at hv
        · rcases List.mem_cons.1 hv with h1 | h1
          · exact ⟨s, h1⟩
          · exact ih kept1 hr v h1
        · exact ih kept1 hr v hv
    | undefined => simp [filterEntries, callEndsWith] at h
    | null => simp [filterEntries, callEndsWith] at h
    | bool b => simp [filterEntries, callEndsWith] at h
    | num n => simp [filterEntries, callEndsWith] at h
    | arr xs => simp [filterEntries, callEndsWith] at h
    | obj ps => simp [filterEntries, callEndsWith] at h

/-- The array `files` of line 305 is empty whenever it is computed at all: what the filter
keeps is a string, and a string has no `attributes`. -/
theorem listedFiles_nil (data : JsVal) (files : List String)
    (h : listedFiles data = .ok files) : files = [] := by
  unfold listedFiles at h
  cases hd : getProp data "data" with
  | error e => simp [hd, Bind.bind, Except.bind] at h
  | ok entries =>
    cases entries with
    | arr items =>
      cases hk : filterEntries items with
      | error e => simp [hd, hk, Bind.bind, Except.bind] at h
      | ok kept =>
        cases kept with
        | nil =>
          simp [hd, hk, Bind.bind, Except.bind, mapEntries] at h
          exact h
        | cons v rest =>
          obtain ⟨s, hs⟩ := filterEntries_strings items (v :: rest) hk v (List.mem_cons_self _ _)
          subst hs
          have hi : indexOfKey "attributes" = none := by decide
          have he : entryName (.str s) = .error .typeError := by
            simp [entryName, getProp, Bind.bind, Except.bind, atIndexKey, hi]
          simp [hd, hk, Bind.bind, Except.bind, mapEntries, he] at h
    | undefined => simp [hd, Bind.bind, Except.bind] at h
    | null => simp [hd, Bind.bind, Except.bind] at h
    | bool b => simp [hd, Bind.bind, Except.bind] at h
    | num n => simp [hd, Bind.bind, Except.bind] at h
    | str t => simp [hd, Bind.bind, Except.bind] at h
    | obj ps => simp [hd, Bind.bind, Except.bind] at h

/-- The list subcommand asks the file host for the listing and makes no other call: it
never posts to the channel, whatever the file host answers. -/
theorem listCommand_posts_nothing (w : World) (body : JsVal) (log : List Call) :
    ∃ r, listCommand w body log =
      (.ok r, log ++ [.listDirectory "/plugins/WorldEdit/schematics"]) := by
  cases hl : w.http log (.listDirectory "/plugins/WorldEdit/schematics") with
  | error e =>
    exact ⟨channelMessage "Failed to list the schematic files.", by
      simp [listCommand, Bind.bind, Exec.bind, Exec.tryCatch, Exec.request, Pure.pure,
        Exec.pure, hl]⟩
  | ok data =>
    cases hf : listedFiles data with
    | error e =>
      exact ⟨channelMessage "Failed to list the schematic files.", by
        simp [listCommand, Bind.bind, Exec.bind, Exec.tryCatch, Exec.request,
          Exec.eval, Pure.pure, Exec.pure, hl, hf]⟩
    | ok files =>
      have hnil := listedFiles_nil data files hf
      subst hnil
      exact ⟨channelMessage "Schematics on the server:", by
        simp [listCommand, Bind.bind, Exec.bind, Exec.tryCatch, Exec.request,
          Exec.eval, Pure.pure, Exec.pure, hl, hf, chunkify, chunkifyLoop, postChunks]⟩

/-- The calls made before a subcommand of `schematic` starts are the verifier and the
construction of the two clients: nothing has gone over the network. -/
theorem networkCalls_schematicLog (request : Request) :
    networkCalls (schematicLog request) = [] := rfl

/-- C11: a verified `schematic upload` whose attachment URL is a text that, read after its
last dot, is not exactly `schematic` gets status 200 with the channel message (type 4)
`Invalid file extension. Please upload a schematic file.`; the calls made are the verifier
and the construction of the two clients, so no request goes to the file host or anywhere
else over the network. -/
theorem upload_rejects_other_extension (w : World) (request : Request) (body : JsVal)
    (url ext : String) (hv : Verified w request body) (hi : Invokes body "upload")
    (hu : attachmentUrl body = .ok (.str url))
    (hx : fileExtensionOf (.str url) = .ok ext) (hne : ext ≠ "schematic") :
    run w request =
      (.ok { status := 200,
             jsonBody := some
               { type := 4,
                 content := some "Invalid file extension. Please upload a schematic file." } },
       [.verify (signedMessage request) (signatureBytes request),
        .createClient .discord, .createClient .pterodactyl]) ∧
    networkCalls (run w request).2 = [] := by
  have hrun : run w request =
      (.ok (channelMessage "Invalid file extension. Please upload a schematic file."),
       schematicLog request) := by
    rw [run_of_upload w request body hv hi]
    simp [uploadCommand, Bind.bind, Exec.bind, Exec.eval, Pure.pure, Exec.pure, hu, hx, hne]
  exact ⟨hrun, by rw [hrun]; exact networkCalls_schematicLog request⟩

set_option maxRecDepth 8192 in
theorem upload_rejects_other_extension_witness :
    Verified listingWorld (sampleRequest sampleUploadPngText 128) sampleUploadPngBody ∧
    Invokes sampleUploadPngBody "upload" ∧
    attachmentUrl sampleUploadPngBody = .ok (.str "https://cdn.example/a.png") ∧
    fileExtensionOf (.str "https://cdn.example/a.png") = .ok "png" ∧
    run listingWorld (sampleRequest sampleUploadPngText 128) =
      (.ok { status := 200,
             jsonBody := some
               { type := 4,
                 content := some "Invalid file extension. Please upload a schematic file." } },
       [.verify (signedMessage (sampleRequest sampleUploadPngText 128))
          (signatureBytes (sampleRequest sampleUploadPngText 128)),
        .createClient .discord, .createClient .pterodactyl]) ∧
    networkCalls (run listingWorld (sampleRequest sampleUploadPngText 128)).2 = [] :=
  ⟨sample_verified _ _ sampleUploadPngText sampleUploadPngBody rfl rfl,
   ⟨_, _, _, rfl, rfl, rfl, rfl, rfl, rfl⟩, rfl, rfl,
   upload_rejects_other_extension listingWorld (sampleRequest sampleUploadPngText 128)
     sampleUploadPngBody "https://cdn.example/a.png" "png"
     (sample_verified _ _ sampleUploadPngText sampleUploadPngBody rfl rfl)
     ⟨_, _, _, rfl, rfl, rfl, rfl, rfl, rfl⟩ rfl rfl (by decide)⟩

end Interactions
